import Mathlib

set_option maxHeartbeats 1000000

/-- User identity, mirroring the string user ids of the source. -/
abbrev UserId := Nat

/-- Identity of a live WebSocket connection handle. -/
abbrev ConnId := Nat

/-- Channel identity, mirroring the string channel ids of the source. -/
abbrev ChannelId := Nat

/-- Message identity, mirroring the string message ids of the source. -/
abbrev MsgId := Nat

/-- User record: only the fields the realtime subsystem reads. -/
structure User where
  id : UserId
  firstName : Option String
  deriving DecidableEq

/-- Persisted message row (messages table). -/
structure Msg where
  id : MsgId
  channelId : ChannelId
  senderId : UserId
  content : String
  replyToId : Option MsgId
  deriving DecidableEq

/-- Persisted reaction row (reactions table). -/
structure Reaction where
  messageId : MsgId
  userId : UserId
  emoji : String
  deriving DecidableEq

/-- Return shape of storage.createMessage: the row joined with its sender
and reaction list (MessageWithSender in shared/schema.ts). -/
structure MessageWithSender where
  msg : Msg
  sender : User
  reactions : List Reaction
  deriving DecidableEq

/-- The external relational store behind the IStorage interface, restricted
to the tables the WebSocket handler touches. -/
structure Storage where
  users : List User
  membership : List (ChannelId × UserId)
  messages : List Msg
  reactions : List Reaction
  nextMsgId : MsgId
  deriving DecidableEq

/-- storage.getUser: first users row with the given id. -/
def Storage.getUser (s : Storage) (uid : UserId) : Option User :=
  s.users.find? (fun u => u.id == uid)

/-- storage.isChannelMember: true iff a channelMembers row (ch, uid) exists. -/
def Storage.isChannelMember (s : Storage) (ch : ChannelId) (uid : UserId) : Bool :=
  s.membership.any (fun p => p.1 == ch && p.2 == uid)

/-- Channel ids of storage.getUserChannels(uid); the WebSocket auth case only
uses the ids (channels.map(c => c.id)). -/
def Storage.getUserChannelIds (s : Storage) (uid : UserId) : List ChannelId :=
  (s.membership.filter (fun p => p.2 == uid)).map (fun p => p.1)

/-- storage.getMessage: first messages row with the given id. -/
def Storage.getMessage (s : Storage) (mid : MsgId) : Option Msg :=
  s.messages.find? (fun m => m.id == mid)

/-- storage.createMessage: insert the row (the insert persists even when the
subsequent sender lookup fails and the call throws "Sender not found"), then
join the sender and return an empty reaction list. -/
def Storage.createMessage (s : Storage) (ch : ChannelId) (senderId : UserId)
    (content : String) (replyToId : Option MsgId) :
    Storage × Except String MessageWithSender :=
  let m : Msg := ⟨s.nextMsgId, ch, senderId, content, replyToId⟩
  let s' : Storage := ⟨s.users, s.membership, s.messages ++ [m], s.reactions, s.nextMsgId + 1⟩
  match s.getUser senderId with
  | none => (s', Except.error "Sender not found")
  | some sender => (s', Except.ok ⟨m, sender, []⟩)

/-- storage.addReaction: no-op if the identical (messageId,userId,emoji) row
exists, else insert it. -/
def Storage.addReaction (s : Storage) (mid : MsgId) (uid : UserId) (emoji : String) : Storage :=
  if s.reactions.any (fun r => r.messageId == mid && r.userId == uid && r.emoji == emoji) then s
  else ⟨s.users, s.membership, s.messages, s.reactions ++ [⟨mid, uid, emoji⟩], s.nextMsgId⟩

/-- storage.removeReaction: delete all matching (messageId,userId,emoji) rows. -/
def Storage.removeReaction (s : Storage) (mid : MsgId) (uid : UserId) (emoji : String) : Storage :=
  ⟨s.users, s.membership, s.messages,
   s.reactions.filter (fun r => !(r.messageId == mid && r.userId == uid && r.emoji == emoji)),
   s.nextMsgId⟩

/-- JS Map.set semantics on an insertion-ordered association list: update in
place when the key exists, else append. -/
def mapSet {β : Type} (m : List (Nat × β)) (k : Nat) (v : β) : List (Nat × β) :=
  if m.any (fun p => p.1 == k) then
    m.map (fun p => if p.1 == k then (k, v) else p)
  else m ++ [(k, v)]

/-- JS Map.delete semantics: drop every entry with the key. -/
def mapDelete {β : Type} (m : List (Nat × β)) (k : Nat) : List (Nat × β) :=
  m.filter (fun p => p.1 != k)

/-- JS Map.get semantics: value of the first entry with the key. -/
def mapLookup {β : Type} (m : List (Nat × β)) (k : Nat) : Option β :=
  (m.find? (fun p => p.1 == k)).map (fun p => p.2)

/-- Number of entries of the association list carrying the key. -/
def countKey {β : Type} (m : List (Nat × β)) (k : Nat) : Nat :=
  (m.filter (fun p => p.1 == k)).length

/-- The module-level shared mutable state of the realtime layer: the clients
registry, the userChannels routing index, the per-socket wsUserMap, and the
external storage the handlers call into. -/
structure ServerState where
  clients : List (UserId × ConnId)
  userChannels : List (UserId × List ChannelId)
  wsUserMap : List (ConnId × UserId)
  storage : Storage
  deriving DecidableEq

/-- Transport environment: which connection handles currently have
readyState === OPEN. -/
structure Env where
  openConns : List ConnId
  deriving DecidableEq

/-- readyState === WebSocket.OPEN check. -/
def Env.isOpen (e : Env) (c : ConnId) : Bool :=
  e.openConns.contains c

/-- Per-connection closure state of the wss connection callback: the
let-bound userId variable and the session-derived authenticatedUserId. -/
structure ConnState where
  userId : Option UserId
  authenticatedUserId : Option UserId
  deriving DecidableEq

/-- Outbound frames the server sends. -/
inductive OutEvent where
  | onlineUsers (userIds : List UserId)
  | userOnline (userId : UserId)
  | userOffline (userId : UserId)
  | typingStart (userId : UserId) (channelId : ChannelId) (firstName : Option String)
  | typingStop (userId : UserId) (channelId : ChannelId)
  | newMessage (message : MessageWithSender)
  | messageReaction (messageId : MsgId) (emoji : String) (userId : UserId) (action : String)
  deriving DecidableEq

/-- Decoded inbound frames; unknown stands for any unrecognized type tag. -/
inductive Frame where
  | auth (userId : UserId)
  | typingStart (channelId : ChannelId)
  | typingStop (channelId : ChannelId)
  | sendMessage (channelId : ChannelId) (content : String) (replyToId : Option MsgId)
  | addReaction (messageId : MsgId) (emoji : String)
  | removeReaction (messageId : MsgId) (emoji : String)
  | unknown
  deriving DecidableEq

/-- Delivery trace: (target connection, frame) pairs in send order. -/
abbrev SendTrace := List (ConnId × OutEvent)

/-- broadcastToChannel: scan the userChannels index for users whose channel
set contains the channel, skip excludeUserId, look each up in clients, and
send only when the transport is OPEN. -/
def broadcastToChannel (st : ServerState) (env : Env) (ch : ChannelId)
    (ev : OutEvent) (excludeUserId : Option UserId) : SendTrace :=
  let channelUsers :=
    ((st.userChannels.filter (fun p => p.2.contains ch)).map (fun p => p.1))
  channelUsers.filterMap (fun u =>
    if excludeUserId == some u then none
    else
      match mapLookup st.clients u with
      | some c => if env.isOpen c then some (c, ev) else none
      | none => none)

/-- broadcastToAll: iterate the clients registry, skip excludeUserId, send to
every OPEN transport. -/
def broadcastToAll (st : ServerState) (env : Env) (ev : OutEvent)
    (excludeUserId : Option UserId) : SendTrace :=
  st.clients.filterMap (fun p =>
    if excludeUserId == some p.1 then none
    else if env.isOpen p.2 then some (p.2, ev) else none)

/-- Close command issued on the own socket of the handler: ws.close(code, reason). -/
abbrev CloseCmd := Nat × String

/-- Shared tail of both successful auth branches: clients.set, wsUserMap.set,
load the channel-id snapshot into userChannels, send the online_users
snapshot to the binding socket, broadcast user_online excluding the user. -/
def bindUser (env : Env) (st : ServerState) (c : ConnState) (self : ConnId)
    (u : UserId) :
    ServerState × Except String (ConnState × SendTrace × Option CloseCmd) :=
  let clients' := mapSet st.clients u self
  let wsUserMap' := mapSet st.wsUserMap self u
  let channelIds := st.storage.getUserChannelIds u
  let userChannels' := mapSet st.userChannels u channelIds
  let st' : ServerState := ⟨clients', userChannels', wsUserMap', st.storage⟩
  let onlineIds := st'.clients.map (fun p => p.1)
  let sent := (self, OutEvent.onlineUsers onlineIds) ::
    broadcastToAll st' env (OutEvent.userOnline u) (some u)
  (st', Except.ok (⟨some u, c.authenticatedUserId⟩, sent, none))

/-- Body of the ws.on("message") switch, before the surrounding try/catch.
The first component is the shared state as mutated so far (mutations made
before a throw persist); the Except is the thrown error or the normal result
(updated closure state, delivery trace, close command on the own socket). -/
def handleFrameCore (env : Env) (st : ServerState) (c : ConnState)
    (self : ConnId) (fr : Option Frame) :
    ServerState × Except String (ConnState × SendTrace × Option CloseCmd) :=
  match fr with
  | none => (st, Except.error "Unexpected token in JSON")
  | some (Frame.auth clientUserId) =>
    match c.authenticatedUserId with
    | some sessionId =>
      if clientUserId != sessionId then
        (st, Except.ok (c, [], some (4001, "Authentication mismatch")))
      else
        bindUser env st c self sessionId
    | none =>
      match st.storage.getUser clientUserId with
      | none => (st, Except.ok (c, [], some (4002, "User not found")))
      | some _ => bindUser env st c self clientUserId
  | some (Frame.typingStart ch) =>
    match c.userId with
    | none => (st, Except.ok (c, [], none))
    | some u =>
      let fn := (st.storage.getUser u).bind User.firstName
      (st, Except.ok (c,
        broadcastToChannel st env ch (OutEvent.typingStart u ch fn) (some u), none))
  | some (Frame.typingStop ch) =>
    match c.userId with
    | none => (st, Except.ok (c, [], none))
    | some u =>
      (st, Except.ok (c,
        broadcastToChannel st env ch (OutEvent.typingStop u ch) (some u), none))
  | some (Frame.sendMessage ch content replyToId) =>
    match c.userId with
    | none => (st, Except.ok (c, [], none))
    | some u =>
      if st.storage.isChannelMember ch u then
        match st.storage.createMessage ch u content replyToId with
        | (storage', Except.error e) =>
          (⟨st.clients, st.userChannels, st.wsUserMap, storage'⟩, Except.error e)
        | (storage', Except.ok m) =>
          let st' : ServerState := ⟨st.clients, st.userChannels, st.wsUserMap, storage'⟩
          (st', Except.ok (c,
            broadcastToChannel st' env ch (OutEvent.newMessage m) none, none))
      else (st, Except.ok (c, [], none))
  | some (Frame.addReaction mid emoji) =>
    match c.userId with
    | none => (st, Except.ok (c, [], none))
    | some u =>
      match st.storage.getMessage mid with
      | none => (st, Except.ok (c, [], none))
      | some msg =>
        let storage' := st.storage.addReaction mid u emoji
        let st' : ServerState := ⟨st.clients, st.userChannels, st.wsUserMap, storage'⟩
        (st', Except.ok (c,
          broadcastToChannel st' env msg.channelId
            (OutEvent.messageReaction mid emoji u "add") none, none))
  | some (Frame.removeReaction mid emoji) =>
    match c.userId with
    | none => (st, Except.ok (c, [], none))
    | some u =>
      match st.storage.getMessage mid with
      | none => (st, Except.ok (c, [], none))
      | some msg =>
        let storage' := st.storage.removeReaction mid u emoji
        let st' : ServerState := ⟨st.clients, st.userChannels, st.wsUserMap, storage'⟩
        (st', Except.ok (c,
          broadcastToChannel st' env msg.channelId
            (OutEvent.messageReaction mid emoji u "remove") none, none))
  | some Frame.unknown => (st, Except.ok (c, [], none))

/-- Net result of one ws.on("message") invocation. -/
structure HandlerResult where
  server : ServerState
  conn : ConnState
  sent : SendTrace
  closed : Option CloseCmd
  errorLogged : Bool
  deriving DecidableEq

/-- ws.on("message") handler: the core switch wrapped in try/catch; a thrown
error is logged (console.error) and swallowed, the connection stays open. -/
def handleFrame (env : Env) (st : ServerState) (c : ConnState) (self : ConnId)
    (fr : Option Frame) : HandlerResult :=
  match handleFrameCore env st c self fr with
  | (st', Except.ok (c', sent, closed)) => ⟨st', c', sent, closed, false⟩
  | (st', Except.error _) => ⟨st', c, [], none, true⟩

/-- ws.on("close") handler: resolve closingUserId as wsUserMap.get(ws) with
the closure variable userId as fallback; if truthy, delete the registry entry
and the membership index entry keyed by that user, delete the wsUserMap
entry for this socket, and broadcast user_offline with no exclusion. The
closure variable userId itself is never reset. -/
def handleClose (env : Env) (st : ServerState) (c : ConnState) (self : ConnId) :
    ServerState × SendTrace :=
  let closingUserId :=
    match mapLookup st.wsUserMap self with
    | some u => some u
    | none => c.userId
  match closingUserId with
  | none => (st, [])
  | some u =>
    let st' : ServerState :=
      ⟨mapDelete st.clients u, mapDelete st.userChannels u,
       mapDelete st.wsUserMap self, st.storage⟩
    (st', broadcastToAll st' env (OutEvent.userOffline u) none)

/-- Fixture: users 7 and 8 are channel-5 members, online on conns 1 and 2. -/
def stBase : ServerState :=
  ⟨[(7, 1), (8, 2)], [(7, [5]), (8, [5])], [(1, 7), (2, 8)],
   ⟨[⟨7, some "Ann"⟩, ⟨8, none⟩], [(5, 7), (5, 8)], [⟨10, 5, 7, "x", none⟩], [], 11⟩⟩

/-- Fixture: connection handles 0, 1, 2 and 3 are OPEN. -/
def envBase : Env := ⟨[0, 1, 2, 3]⟩

/-- Fixture: user 1 is online (conn 0) and indexed for channel 5, but holds no
channelMembers row for channel 5 in storage; user 7 is a member (conn 1);
message 10 lives in channel 5. -/
def stStale : ServerState :=
  ⟨[(1, 0), (7, 1)], [(1, [5]), (7, [5])], [(0, 1), (1, 7)],
   ⟨[⟨1, none⟩, ⟨7, none⟩], [(5, 7)], [⟨10, 5, 7, "x", none⟩], [], 11⟩⟩

/-- Fixture: user 7 was bound on conn 0, then re-authenticated on conn 1, so
the registry points at conn 1 while wsUserMap still holds the stale conn 0
entry; user 8 is online on conn 2. -/
def stSuper : ServerState :=
  ⟨[(7, 1), (8, 2)], [(7, [5]), (8, [5])], [(0, 7), (1, 7), (2, 8)],
   ⟨[⟨7, some "Ann"⟩, ⟨8, none⟩], [(5, 7), (5, 8)], [⟨10, 5, 7, "x", none⟩], [], 11⟩⟩

/-- Map.get after Map.set of the same key returns the new value. -/
theorem mapLookup_set_self {β : Type} (m : List (Nat × β)) (k : Nat) (v : β) :
    mapLookup (mapSet m k v) k = some v := by
  unfold mapSet mapLookup
  by_cases hany : m.any (fun p => p.1 == k)
  · rw [if_pos hany, List.find?_map]
    have hco : ((fun p : Nat × β => p.1 == k) ∘ fun p : Nat × β => if p.1 == k then (k, v) else p)
        = fun p : Nat × β => p.1 == k := by
      funext p
      by_cases hp : p.1 = k <;> simp [hp]
    rw [hco]
    obtain ⟨q, hq, hqk⟩ := List.any_eq_true.mp hany
    cases hf : m.find? (fun p => p.1 == k) with
    | none =>
      rw [List.find?_eq_none] at hf
      exact absurd hqk (hf q hq)
    | some r =>
      have hrk := List.find?_some hf
      have hr1 : r.1 = k := by simpa using hrk
      simp [hrk, hr1]
  · rw [if_neg hany, List.find?_append]
    have h1 : m.find? (fun p => p.1 == k) = none := by
      rw [List.find?_eq_none]
      intro x hx hxk
      exact hany (List.any_eq_true.mpr ⟨x, hx, hxk⟩)
    rw [h1]
    simp [List.find?]

/-- A successful Map.get exhibits a matching entry of the list. -/
theorem mapLookup_mem {β : Type} {m : List (Nat × β)} {k : Nat} {v : β}
    (h : mapLookup m k = some v) : (k, v) ∈ m := by
  unfold mapLookup at h
  cases hf : m.find? (fun p => p.1 == k) with
  | none => rw [hf] at h; exact absurd h (by simp)
  | some q =>
    rw [hf] at h
    have hq2 : q.2 = v := by simpa using h
    have hqk := List.find?_some hf
    have hk : q.1 = k := by simpa using hqk
    have hmem : q ∈ m := List.mem_of_find?_eq_some hf
    have hq : q = (k, v) := by
      cases q
      simp only [Prod.mk.injEq]
      exact ⟨hk, hq2⟩
    rw [← hq]
    exact hmem

/-- The key just set is among the keys of the map. -/
theorem mem_keys_mapSet {β : Type} (m : List (Nat × β)) (k : Nat) (v : β) :
    k ∈ (mapSet m k v).map (fun p => p.1) := by
  have := mapLookup_mem (mapLookup_set_self m k v)
  exact List.mem_map.mpr ⟨(k, v), this, rfl⟩

/-- Map.set leaves exactly one entry for the key when at most one existed. -/
theorem countKey_set {β : Type} (m : List (Nat × β)) (k : Nat) (v : β)
    (h : countKey m k ≤ 1) : countKey (mapSet m k v) k = 1 := by
  unfold countKey at h
  unfold mapSet countKey
  by_cases hany : m.any (fun p => p.1 == k)
  · rw [if_pos hany]
    have hfilter :
        ((m.map (fun p => if p.1 == k then (k, v) else p)).filter (fun p => p.1 == k)).length
          = (m.filter (fun p => p.1 == k)).length := by
      rw [List.filter_map]
      rw [List.length_map]
      congr 1
      apply List.filter_congr
      intro p _
      by_cases hp : p.1 = k <;> simp [hp]
    rw [hfilter]
    obtain ⟨p, hpm, hpk⟩ := List.any_eq_true.mp hany
    have hpf : p ∈ m.filter (fun p => p.1 == k) := List.mem_filter.mpr ⟨hpm, hpk⟩
    have hge : 0 < (m.filter (fun p => p.1 == k)).length :=
      List.length_pos.mpr (List.ne_nil_of_mem hpf)
    omega
  · rw [if_neg hany]
    have hnil : m.filter (fun p => p.1 == k) = [] := by
      rw [List.filter_eq_nil_iff]
      intro p hpm hpk
      exact hany (List.any_eq_true.mpr ⟨p, hpm, hpk⟩)
    rw [List.filter_append, hnil]
    simp

/-- Map.get after Map.delete of the same key fails. -/
theorem mapLookup_delete_self {β : Type} (m : List (Nat × β)) (k : Nat) :
    mapLookup (mapDelete m k) k = none := by
  unfold mapLookup mapDelete
  rw [List.find?_eq_none.mpr]
  · rfl
  · intro p hp
    have := (List.mem_filter.mp hp).2
    simp only [bne_iff_ne, ne_eq] at this
    simp [this]

/-- Map.delete of another key does not change a Map.get. -/
theorem mapLookup_delete_ne {β : Type} (m : List (Nat × β)) {k j : Nat}
    (h : j ≠ k) : mapLookup (mapDelete m k) j = mapLookup m j := by
  induction m with
  | nil => rfl
  | cons p t ih =>
    unfold mapDelete mapLookup at ih ⊢
    by_cases hpk : p.1 = k
    · have hd : (p.1 != k) = false := by simp [hpk]
      have hpj : ¬((p.1 == j) = true) := by
        simp only [beq_iff_eq, hpk]
        exact Ne.symm h
      rw [List.filter_cons, hd]
      simp only [Bool.false_eq_true, if_false]
      rw [List.find?_cons_of_neg t hpj]
      exact ih
    · have hd : (p.1 != k) = true := by simp [hpk]
      rw [List.filter_cons, hd]
      simp only [if_true]
      by_cases hpj : p.1 = j
      · rw [List.find?_cons_of_pos (t.filter fun q => q.1 != k) (by simp [hpj]),
          List.find?_cons_of_pos t (by simp [hpj])]
      · rw [List.find?_cons_of_neg (t.filter fun q => q.1 != k) (by simp [hpj]),
          List.find?_cons_of_neg t (by simp [hpj])]
        exact ih

/-- An OPEN registered connection receives a broadcastToAll with no
exclusion. -/
theorem broadcastToAll_mem {st : ServerState} {env : Env} {ev : OutEvent}
    (u : UserId) {cc : ConnId} (hm : (u, cc) ∈ st.clients)
    (ho : env.isOpen cc = true) :
    (cc, ev) ∈ broadcastToAll st env ev none := by
  unfold broadcastToAll
  exact List.mem_filterMap.mpr ⟨(u, cc), hm, by simp [ho]⟩

/-- Everything broadcastToChannel delivers is the given event, sent to the
open registered connection of a non-excluded user whose index entry contains
the channel. -/
theorem broadcastToChannel_sound {st : ServerState} {env : Env}
    {ch : ChannelId} {ev e : OutEvent} {ex : Option UserId} {cc : ConnId}
    (h : (cc, e) ∈ broadcastToChannel st env ch ev ex) :
    e = ev ∧ ∃ w chans, (w, chans) ∈ st.userChannels ∧
      chans.contains ch = true ∧ ex ≠ some w ∧
      mapLookup st.clients w = some cc ∧ env.isOpen cc = true := by
  unfold broadcastToChannel at h
  obtain ⟨w, hw, hf⟩ := List.mem_filterMap.mp h
  obtain ⟨p, hp, hpw⟩ := List.mem_map.mp hw
  have hpf := List.mem_filter.mp hp
  by_cases hex : ex = some w
  · simp [hex] at hf
  · have hexb : (ex == some w) = false := by
      cases ex with
      | none => rfl
      | some x => simp; intro hx; exact hex (by rw [hx])
    rw [hexb] at hf
    simp only [Bool.false_eq_true, if_false] at hf
    cases hl : mapLookup st.clients w with
    | none => rw [hl] at hf; simp at hf
    | some cw =>
      rw [hl] at hf
      by_cases ho : env.isOpen cw
      · simp [ho] at hf
        refine ⟨hf.2.symm, w, p.2, ?_, hpf.2, hex, ?_, ?_⟩
        · have : p = (w, p.2) := by rw [← hpw]
          rw [← this]; exact hpf.1
        · rw [hl, hf.1]
        · rw [← hf.1]; exact ho
      · simp [ho] at hf

/-- Every non-excluded user whose index entry contains the channel and whose
registered connection is OPEN receives the broadcastToChannel event. -/
theorem broadcastToChannel_complete {st : ServerState} {env : Env}
    {ch : ChannelId} {ev : OutEvent} {ex : Option UserId}
    {w : UserId} {chans : List ChannelId} {cc : ConnId}
    (hw : (w, chans) ∈ st.userChannels) (hch : chans.contains ch = true)
    (hex : ex ≠ some w) (hl : mapLookup st.clients w = some cc)
    (ho : env.isOpen cc = true) :
    (cc, ev) ∈ broadcastToChannel st env ch ev ex := by
  unfold broadcastToChannel
  have hexb : (ex == some w) = false := by
    cases ex with
    | none => rfl
    | some x => simp; intro hx; exact hex (by rw [hx])
  refine List.mem_filterMap.mpr ⟨w, ?_, ?_⟩
  · exact List.mem_map.mpr ⟨(w, chans), List.mem_filter.mpr ⟨hw, hch⟩, rfl⟩
  · simp [hexb, hl, ho]

/-- C4: a send_message frame from a bound UserId that is not a member of the
target channel, as decided by storage.isChannelMember, invokes no
storage.createMessage, broadcasts no new_message event, and leaves the shared
state (registry, index, wsUserMap and storage) unchanged. -/
theorem C4_send_message_nonmember_noop
    (env : Env) (st : ServerState) (c : ConnState) (self : ConnId) (u : UserId)
    (ch : ChannelId) (content : String) (r : Option MsgId)
    (hu : c.userId = some u) (hm : st.storage.isChannelMember ch u = false) :
    handleFrame env st c self (some (Frame.sendMessage ch content r)) =
      ⟨st, c, [], none, false⟩ := by
  simp [handleFrame, handleFrameCore, hu, hm]

/-- C4 witness: user 1 is bound but not a member of channel 5; the
send_message is a complete no-op. -/
theorem C4_send_message_nonmember_noop_witness :
    handleFrame envBase stStale ⟨some 1, some 1⟩ 0 (some (Frame.sendMessage 5 "hi" none)) =
      ⟨stStale, ⟨some 1, some 1⟩, [], none, false⟩ :=
  C4_send_message_nonmember_noop envBase stStale ⟨some 1, some 1⟩ 0 1 5 "hi" none rfl
    (by decide)

/-- C8: an auth frame whose claimed UserId mismatches the session identity
closes with code 4001, and an auth frame on the fallback path whose claimed
UserId is not in the user store closes with code 4002; the codes are
distinct, and in both cases the connection never binds: no registry entry,
no membership snapshot, no presence broadcast, closure state unchanged. -/
theorem C8_auth_failure_close_codes
    (env : Env) (st : ServerState) (c : ConnState) (self : ConnId)
    (claimed a : UserId) :
    (c.authenticatedUserId = some a → claimed ≠ a →
      handleFrame env st c self (some (Frame.auth claimed)) =
        ⟨st, c, [], some (4001, "Authentication mismatch"), false⟩) ∧
    (c.authenticatedUserId = none → st.storage.getUser claimed = none →
      handleFrame env st c self (some (Frame.auth claimed)) =
        ⟨st, c, [], some (4002, "User not found"), false⟩) ∧
    (4001 : Nat) ≠ 4002 := by
  refine ⟨?_, ?_, by decide⟩
  · intro hs hne
    simp [handleFrame, handleFrameCore, hs, hne]
  · intro hs hg
    simp [handleFrame, handleFrameCore, hs, hg]

/-- C8 witness: conn 3 with session identity 9 claims 8 and is closed 4001;
conn 3 with no session identity claims the unknown user 99 and is closed
4002; neither changes the shared state or sends anything. -/
theorem C8_auth_failure_close_codes_witness :
    handleFrame envBase stBase ⟨none, some 9⟩ 3 (some (Frame.auth 8)) =
      ⟨stBase, ⟨none, some 9⟩, [], some (4001, "Authentication mismatch"), false⟩ ∧
    handleFrame envBase stBase ⟨none, none⟩ 3 (some (Frame.auth 99)) =
      ⟨stBase, ⟨none, none⟩, [], some (4002, "User not found"), false⟩ :=
  ⟨(C8_auth_failure_close_codes envBase stBase ⟨none, some 9⟩ 3 8 9).1 rfl (by decide),
   (C8_auth_failure_close_codes envBase stBase ⟨none, none⟩ 3 99 9).2.1 rfl (by decide)⟩

/-- C9: a malformed (unparseable) frame is caught and logged with the
connection kept open and the state untouched; any error the core switch
raises is caught, logged, and never closes the connection; an unrecognized
type tag is ignored with no state change, no broadcast, no close and no
log. -/
theorem C9_frame_failures_contained
    (env : Env) (st : ServerState) (c : ConnState) (self : ConnId)
    (fr : Option Frame) :
    (fr = none → handleFrame env st c self fr = ⟨st, c, [], none, true⟩) ∧
    (∀ e st', handleFrameCore env st c self fr = (st', Except.error e) →
      (handleFrame env st c self fr).closed = none ∧
      (handleFrame env st c self fr).errorLogged = true ∧
      (handleFrame env st c self fr).conn = c ∧
      (handleFrame env st c self fr).sent = []) ∧
    (fr = some Frame.unknown → handleFrame env st c self fr = ⟨st, c, [], none, false⟩) := by
  refine ⟨?_, ?_, ?_⟩
  · rintro rfl
    rfl
  · intro e st' hcore
    simp [handleFrame, hcore]
  · rintro rfl
    rfl

/-- C9 witness: a malformed frame on bound conn 1 is logged and ignored; an
unknown tag is silently ignored; the connection stays open both times. -/
theorem C9_frame_failures_contained_witness :
    handleFrame envBase stBase ⟨some 7, some 7⟩ 1 none =
      ⟨stBase, ⟨some 7, some 7⟩, [], none, true⟩ ∧
    handleFrame envBase stBase ⟨some 7, some 7⟩ 1 (some Frame.unknown) =
      ⟨stBase, ⟨some 7, some 7⟩, [], none, false⟩ :=
  ⟨(C9_frame_failures_contained envBase stBase ⟨some 7, some 7⟩ 1 none).1 rfl,
   (C9_frame_failures_contained envBase stBase ⟨some 7, some 7⟩ 1
      (some Frame.unknown)).2.2 rfl⟩

/-- C1 counterexample: user 1 is bound on conn 0 and is NOT a member of
channel 5 in storage, yet an add_reaction frame for message 10 (which lives
in channel 5) persists the reaction and broadcasts message_reaction — state
is mutated and an event broadcast although the membership check fails, so
the claimed universal membership gate is false. -/
theorem C1_counterexample :
    stStale.storage.isChannelMember 5 1 = false ∧
    (handleFrame envBase stStale ⟨some 1, some 1⟩ 0
        (some (Frame.addReaction 10 "+1"))).server.storage.reactions =
      [⟨10, 1, "+1"⟩] ∧
    (handleFrame envBase stStale ⟨some 1, some 1⟩ 0
        (some (Frame.addReaction 10 "+1"))).sent =
      [(0, OutEvent.messageReaction 10 "+1" 1 "add"),
       (1, OutEvent.messageReaction 10 "+1" 1 "add")] := by
  decide

/-- C1 amended: only the send_message case validates channel membership via
storage.isChannelMember before mutating state or broadcasting (a non-member
send is a complete no-op); add_reaction and remove_reaction mutate storage
and broadcast after only checking the message exists, with no membership
check (the result does not depend on isChannelMember); typing_start and
typing_stop broadcast with no storage check at all, scoped only by the
routing index and sender exclusion. -/
theorem C1_membership_gate_only_on_send_message
    (env : Env) (st : ServerState) (c : ConnState) (self : ConnId) (u : UserId)
    (ch : ChannelId) (content : String) (r : Option MsgId)
    (mid : MsgId) (emoji : String) (msg : Msg) :
    (c.userId = some u → st.storage.isChannelMember ch u = false →
      handleFrame env st c self (some (Frame.sendMessage ch content r)) =
        ⟨st, c, [], none, false⟩) ∧
    (c.userId = some u → st.storage.getMessage mid = some msg →
      (handleFrame env st c self (some (Frame.addReaction mid emoji))).server.storage =
          st.storage.addReaction mid u emoji ∧
      (handleFrame env st c self (some (Frame.addReaction mid emoji))).sent =
        broadcastToChannel
          ⟨st.clients, st.userChannels, st.wsUserMap, st.storage.addReaction mid u emoji⟩
          env msg.channelId (OutEvent.messageReaction mid emoji u "add") none) ∧
    (c.userId = some u →
      (handleFrame env st c self (some (Frame.typingStart ch))).server = st ∧
      (handleFrame env st c self (some (Frame.typingStart ch))).sent =
        broadcastToChannel st env ch
          (OutEvent.typingStart u ch ((st.storage.getUser u).bind User.firstName))
          (some u)) ∧
    (c.userId = some u → st.storage.getMessage mid = some msg →
      (handleFrame env st c self (some (Frame.removeReaction mid emoji))).server.storage =
          st.storage.removeReaction mid u emoji ∧
      (handleFrame env st c self (some (Frame.removeReaction mid emoji))).sent =
        broadcastToChannel
          ⟨st.clients, st.userChannels, st.wsUserMap, st.storage.removeReaction mid u emoji⟩
          env msg.channelId (OutEvent.messageReaction mid emoji u "remove") none) ∧
    (c.userId = some u →
      (handleFrame env st c self (some (Frame.typingStop ch))).server = st ∧
      (handleFrame env st c self (some (Frame.typingStop ch))).sent =
        broadcastToChannel st env ch (OutEvent.typingStop u ch) (some u)) := by
  refine ⟨?_, ?_, ?_, ?_, ?_⟩
  · intro hu hm
    simp [handleFrame, handleFrameCore, hu, hm]
  · intro hu hg
    simp [handleFrame, handleFrameCore, hu, hg]
  · intro hu
    simp [handleFrame, handleFrameCore, hu]
  · intro hu hg
    simp [handleFrame, handleFrameCore, hu, hg]
  · intro hu
    simp [handleFrame, handleFrameCore, hu]

/-- C1 witness: the amended no-gate clause applied to the non-member
reaction scenario: the reaction of non-member user 1 is persisted. -/
theorem C1_membership_gate_only_on_send_message_witness :
    (handleFrame envBase stStale ⟨some 1, some 1⟩ 0
        (some (Frame.addReaction 10 "+1"))).server.storage =
      stStale.storage.addReaction 10 1 "+1" :=
  ((C1_membership_gate_only_on_send_message envBase stStale ⟨some 1, some 1⟩ 0 1
      5 "hi" none 10 "+1" ⟨10, 5, 7, "x", none⟩).2.1 rfl (by decide)).1

/-- C2 counterexample: users 7 and 8 are bound (conns 1 and 2); running the
close path twice for conn 1 broadcasts user_offline(7) to conn 2 on BOTH
runs — two user_offline broadcasts in total, not exactly one — because the
second run falls back to the still-set closure variable userId. -/
theorem C2_counterexample :
    (handleClose envBase stBase ⟨some 7, some 7⟩ 1).2 =
      [(2, OutEvent.userOffline 7)] ∧
    (handleClose envBase (handleClose envBase stBase ⟨some 7, some 7⟩ 1).1
        ⟨some 7, some 7⟩ 1).2 = [(2, OutEvent.userOffline 7)] ∧
    ((handleClose envBase stBase ⟨some 7, some 7⟩ 1).2 ++
        (handleClose envBase (handleClose envBase stBase ⟨some 7, some 7⟩ 1).1
          ⟨some 7, some 7⟩ 1).2).length = 2 := by
  decide

/-- C2 amended: the teardown is idempotent only for a never-bound connection
(userId never set, no wsUserMap entry): both runs are complete no-ops with
no presence broadcast and no error. For a bound connection the path is NOT
idempotent: because the fallback closingUserId = wsUserMap.get(ws) or the
never-cleared closure userId, the second run broadcasts user_offline again,
and a remaining open registered connection receives user_offline(u) on both
runs. No run raises an error (the handler is total). -/
theorem C2_teardown_idempotent_only_when_never_bound
    (env : Env) (st : ServerState) (c : ConnState) (self : ConnId)
    (u w : UserId) (cw : ConnId) :
    (c.userId = none → mapLookup st.wsUserMap self = none →
      handleClose env st c self = (st, []) ∧
      handleClose env (handleClose env st c self).1 c self = (st, [])) ∧
    (mapLookup st.wsUserMap self = some u → c.userId = some u →
      w ≠ u → mapLookup st.clients w = some cw → env.isOpen cw = true →
      (cw, OutEvent.userOffline u) ∈ (handleClose env st c self).2 ∧
      (cw, OutEvent.userOffline u) ∈
        (handleClose env (handleClose env st c self).1 c self).2) := by
  constructor
  · intro h1 h2
    have hfirst : handleClose env st c self = (st, []) := by
      simp [handleClose, h1, h2]
    refine ⟨hfirst, ?_⟩
    rw [hfirst]
    exact hfirst
  · intro hws hu hne hcw ho
    have hmem : (w, cw) ∈ st.clients := mapLookup_mem hcw
    have hmem1 : (w, cw) ∈ mapDelete st.clients u :=
      List.mem_filter.mpr ⟨hmem, by simp [hne]⟩
    have hfst : handleClose env st c self =
        (⟨mapDelete st.clients u, mapDelete st.userChannels u,
          mapDelete st.wsUserMap self, st.storage⟩,
         broadcastToAll
           ⟨mapDelete st.clients u, mapDelete st.userChannels u,
            mapDelete st.wsUserMap self, st.storage⟩ env
           (OutEvent.userOffline u) none) := by
      simp [handleClose, hws]
    constructor
    · rw [hfst]
      exact broadcastToAll_mem w hmem1 ho
    · rw [hfst]
      have hsnd : handleClose env
          ⟨mapDelete st.clients u, mapDelete st.userChannels u,
           mapDelete st.wsUserMap self, st.storage⟩ c self =
          (⟨mapDelete (mapDelete st.clients u) u,
            mapDelete (mapDelete st.userChannels u) u,
            mapDelete (mapDelete st.wsUserMap self) self, st.storage⟩,
           broadcastToAll
             ⟨mapDelete (mapDelete st.clients u) u,
              mapDelete (mapDelete st.userChannels u) u,
              mapDelete (mapDelete st.wsUserMap self) self, st.storage⟩ env
             (OutEvent.userOffline u) none) := by
        simp [handleClose, mapLookup_delete_self, hu]
      rw [hsnd]
      have hmem2 : (w, cw) ∈ mapDelete (mapDelete st.clients u) u :=
        List.mem_filter.mpr ⟨hmem1, by simp [hne]⟩
      exact broadcastToAll_mem w hmem2 ho

/-- C2 witness: the amended bound-connection clause at the concrete double
close of conn 1 (user 7): conn 2 receives user_offline(7) on both runs. -/
theorem C2_teardown_idempotent_only_when_never_bound_witness :
    (2, OutEvent.userOffline 7) ∈ (handleClose envBase stBase ⟨some 7, some 7⟩ 1).2 ∧
    (2, OutEvent.userOffline 7) ∈
      (handleClose envBase (handleClose envBase stBase ⟨some 7, some 7⟩ 1).1
        ⟨some 7, some 7⟩ 1).2 :=
  (C2_teardown_idempotent_only_when_never_bound envBase stBase ⟨some 7, some 7⟩ 1
      7 8 2).2 (by decide) rfl (by decide) (by decide) (by decide)

/-- C3: the close of a socket whose wsUserMap entry names UserId u deletes
the registry and membership-index entries keyed by u and broadcasts
user_offline(u) to every remaining registered OPEN connection — even when
the registry entry for u currently points to a different, newer connection
(hypotheses _hreg and _hne): the teardown is keyed by the UserId of the
closing socket, not by identity of the registered socket. -/
theorem C3_close_keyed_by_socket_user
    (env : Env) (st : ServerState) (c : ConnState) (self other : ConnId)
    (u : UserId)
    (hws : mapLookup st.wsUserMap self = some u)
    (_hreg : mapLookup st.clients u = some other) (_hne : other ≠ self) :
    (handleClose env st c self).1.clients = mapDelete st.clients u ∧
    mapLookup (handleClose env st c self).1.clients u = none ∧
    (handleClose env st c self).1.userChannels = mapDelete st.userChannels u ∧
    mapLookup (handleClose env st c self).1.userChannels u = none ∧
    (handleClose env st c self).2 =
      broadcastToAll (handleClose env st c self).1 env (OutEvent.userOffline u) none ∧
    (∀ w cw, (w, cw) ∈ (handleClose env st c self).1.clients →
      env.isOpen cw = true →
      (cw, OutEvent.userOffline u) ∈ (handleClose env st c self).2) := by
  have hfst : handleClose env st c self =
      (⟨mapDelete st.clients u, mapDelete st.userChannels u,
        mapDelete st.wsUserMap self, st.storage⟩,
       broadcastToAll
         ⟨mapDelete st.clients u, mapDelete st.userChannels u,
          mapDelete st.wsUserMap self, st.storage⟩ env
         (OutEvent.userOffline u) none) := by
    simp [handleClose, hws]
  rw [hfst]
  refine ⟨rfl, mapLookup_delete_self _ _, rfl, mapLookup_delete_self _ _, rfl, ?_⟩
  intro w cw hm ho
  exact broadcastToAll_mem w hm ho

/-- C3 witness: user 7 bound on conn 0 was superseded by conn 1 (registry
points at conn 1); closing the stale conn 0 still removes user 7 from the
registry. -/
theorem C3_close_keyed_by_socket_user_witness :
    mapLookup (handleClose envBase stSuper ⟨some 7, some 7⟩ 0).1.clients 7 = none :=
  (C3_close_keyed_by_socket_user envBase stSuper ⟨some 7, some 7⟩ 0 1 7
    (by decide) (by decide) (by decide)).2.1

/-- Successful session-path authentication installs the binding socket in
the clients registry with Map.set. -/
theorem handleFrame_auth_session_clients
    (env : Env) (st : ServerState) (c : ConnState) (self : ConnId) (u : UserId)
    (h : c.authenticatedUserId = some u) :
    (handleFrame env st c self (some (Frame.auth u))).server.clients =
      mapSet st.clients u self := by
  simp [handleFrame, handleFrameCore, bindUser, h]

/-- C5: after two successive successful authentications as the same UserId u
(conn self1 then conn self2), the registry holds exactly one entry for u and
lookup returns the second connection; the hypothesis on countKey only states
the registry did not already hold duplicate keys for u, which Map semantics
guarantee for every reachable state. -/
theorem C5_registry_at_most_one_binding
    (env1 env2 : Env) (st : ServerState) (c1 c2 : ConnState)
    (self1 self2 : ConnId) (u : UserId)
    (h1 : c1.authenticatedUserId = some u) (h2 : c2.authenticatedUserId = some u)
    (hcount : countKey st.clients u ≤ 1) :
    countKey (handleFrame env2 (handleFrame env1 st c1 self1
        (some (Frame.auth u))).server c2 self2 (some (Frame.auth u))).server.clients u = 1 ∧
    mapLookup (handleFrame env2 (handleFrame env1 st c1 self1
        (some (Frame.auth u))).server c2 self2 (some (Frame.auth u))).server.clients u =
      some self2 := by
  rw [handleFrame_auth_session_clients env2 _ c2 self2 u h2,
    handleFrame_auth_session_clients env1 st c1 self1 u h1]
  have hc1 : countKey (mapSet st.clients u self1) u = 1 :=
    countKey_set _ _ _ hcount
  exact ⟨countKey_set _ _ _ (le_of_eq hc1), mapLookup_set_self _ _ _⟩

/-- C5 witness: user 9 binds on conn 3 and then on conn 0: one registry
entry, lookup yields conn 0. -/
theorem C5_registry_at_most_one_binding_witness :
    countKey (handleFrame envBase (handleFrame envBase stBase ⟨none, some 9⟩ 3
        (some (Frame.auth 9))).server ⟨none, some 9⟩ 0
        (some (Frame.auth 9))).server.clients 9 = 1 ∧
    mapLookup (handleFrame envBase (handleFrame envBase stBase ⟨none, some 9⟩ 3
        (some (Frame.auth 9))).server ⟨none, some 9⟩ 0
        (some (Frame.auth 9))).server.clients 9 = some 0 :=
  C5_registry_at_most_one_binding envBase envBase stBase ⟨none, some 9⟩ ⟨none, some 9⟩
    3 0 9 rfl rfl (by decide)

/-- C6: a send_message from bound member u with existing sender row
persists the message and routes the new_message event with NO exclusion:
every user whose index entry contains the channel — the sender included —
with a registered OPEN connection receives the canonical persisted record,
which carries the sender object and an empty reaction list. -/
theorem C6_new_message_routed_unexcluded
    (env : Env) (st : ServerState) (c : ConnState) (self : ConnId) (u : UserId)
    (ch : ChannelId) (content : String) (r : Option MsgId) (sender : User)
    (hu : c.userId = some u) (hm : st.storage.isChannelMember ch u = true)
    (hs : st.storage.getUser u = some sender) :
    (handleFrame env st c self (some (Frame.sendMessage ch content r))).sent =
      broadcastToChannel
        ⟨st.clients, st.userChannels, st.wsUserMap,
         ⟨st.storage.users, st.storage.membership,
          st.storage.messages ++ [⟨st.storage.nextMsgId, ch, u, content, r⟩],
          st.storage.reactions, st.storage.nextMsgId + 1⟩⟩ env ch
        (OutEvent.newMessage ⟨⟨st.storage.nextMsgId, ch, u, content, r⟩, sender, []⟩)
        none ∧
    (∀ w chans cw, (w, chans) ∈ st.userChannels → chans.contains ch = true →
      mapLookup st.clients w = some cw → env.isOpen cw = true →
      (cw, OutEvent.newMessage ⟨⟨st.storage.nextMsgId, ch, u, content, r⟩, sender, []⟩) ∈
        (handleFrame env st c self (some (Frame.sendMessage ch content r))).sent) ∧
    (handleFrame env st c self
        (some (Frame.sendMessage ch content r))).server.storage.messages =
      st.storage.messages ++ [⟨st.storage.nextMsgId, ch, u, content, r⟩] ∧
    (handleFrame env st c self (some (Frame.sendMessage ch content r))).closed = none := by
  have heq : handleFrame env st c self (some (Frame.sendMessage ch content r)) =
      ⟨⟨st.clients, st.userChannels, st.wsUserMap,
        ⟨st.storage.users, st.storage.membership,
         st.storage.messages ++ [⟨st.storage.nextMsgId, ch, u, content, r⟩],
         st.storage.reactions, st.storage.nextMsgId + 1⟩⟩, c,
       broadcastToChannel
         ⟨st.clients, st.userChannels, st.wsUserMap,
          ⟨st.storage.users, st.storage.membership,
           st.storage.messages ++ [⟨st.storage.nextMsgId, ch, u, content, r⟩],
           st.storage.reactions, st.storage.nextMsgId + 1⟩⟩ env ch
         (OutEvent.newMessage ⟨⟨st.storage.nextMsgId, ch, u, content, r⟩, sender, []⟩)
         none, none, false⟩ := by
    simp [handleFrame, handleFrameCore, Storage.createMessage, hu, hm, hs]
  rw [heq]
  refine ⟨rfl, ?_, rfl, rfl⟩
  intro w chans cw hw hch hcw ho
  exact broadcastToChannel_complete hw hch (by simp) hcw ho

/-- C6 witness: member 7 sends "hi" in channel 5; both member connections —
conn 1 of the sender included — receive the persisted record with sender 7
and empty reactions. -/
theorem C6_new_message_routed_unexcluded_witness :
    (1, OutEvent.newMessage ⟨⟨11, 5, 7, "hi", none⟩, ⟨7, some "Ann"⟩, []⟩) ∈
      (handleFrame envBase stBase ⟨some 7, some 7⟩ 1
        (some (Frame.sendMessage 5 "hi" none))).sent ∧
    (2, OutEvent.newMessage ⟨⟨11, 5, 7, "hi", none⟩, ⟨7, some "Ann"⟩, []⟩) ∈
      (handleFrame envBase stBase ⟨some 7, some 7⟩ 1
        (some (Frame.sendMessage 5 "hi" none))).sent :=
  ⟨(C6_new_message_routed_unexcluded envBase stBase ⟨some 7, some 7⟩ 1 7 5 "hi" none
      ⟨7, some "Ann"⟩ rfl (by decide) (by decide)).2.1 7 [5] 1
      (by decide) (by decide) (by decide) (by decide),
   (C6_new_message_routed_unexcluded envBase stBase ⟨some 7, some 7⟩ 1 7 5 "hi" none
      ⟨7, some "Ann"⟩ rfl (by decide) (by decide)).2.1 8 [5] 2
      (by decide) (by decide) (by decide) (by decide)⟩

/-- C7: routing with exclusion is exact: an event routed to channel ch with
excludeUserId xu is delivered precisely on behalf of users whose index entry
contains ch, other than xu, and only to their registered OPEN connections
(soundness and completeness clauses); in particular a typing_start by the
bound user u is routed with exclude u, and — provided no registry entry of
another user aliases the connection of u — the own connection of u never receives
anything from it. Non-writable or absent connections are silently skipped
(soundness clause: every delivery target is OPEN and registered). -/
theorem C7_channel_routing_exclusion_exact
    (env : Env) (st : ServerState) (ch : ChannelId) (ev : OutEvent) (xu : UserId)
    (c : ConnState) (self : ConnId) (u : UserId) (cu : ConnId) :
    (∀ cc e, (cc, e) ∈ broadcastToChannel st env ch ev (some xu) →
      e = ev ∧ ∃ w chans, (w, chans) ∈ st.userChannels ∧
        chans.contains ch = true ∧ w ≠ xu ∧
        mapLookup st.clients w = some cc ∧ env.isOpen cc = true) ∧
    (∀ w chans cc, (w, chans) ∈ st.userChannels → chans.contains ch = true →
      w ≠ xu → mapLookup st.clients w = some cc → env.isOpen cc = true →
      (cc, ev) ∈ broadcastToChannel st env ch ev (some xu)) ∧
    (c.userId = some u →
      (handleFrame env st c self (some (Frame.typingStart ch))).sent =
        broadcastToChannel st env ch
          (OutEvent.typingStart u ch ((st.storage.getUser u).bind User.firstName))
          (some u)) ∧
    (c.userId = some u →
      (∀ p ∈ st.clients, p.2 = cu → p.1 = u) →
      ∀ e, (cu, e) ∉
        (handleFrame env st c self (some (Frame.typingStart ch))).sent) := by
  refine ⟨?_, ?_, ?_, ?_⟩
  · intro cc e hmem
    obtain ⟨hev, w, chans, hw, hch, hex, hl, ho⟩ := broadcastToChannel_sound hmem
    exact ⟨hev, w, chans, hw, hch, fun hwx => hex (by rw [hwx]), hl, ho⟩
  · intro w chans cc hw hch hne hl ho
    exact broadcastToChannel_complete hw hch
      (fun hh => hne (Option.some.inj hh).symm) hl ho
  · intro hu
    simp [handleFrame, handleFrameCore, hu]
  · intro hu halias e hmem
    rw [show (handleFrame env st c self (some (Frame.typingStart ch))).sent =
        broadcastToChannel st env ch
          (OutEvent.typingStart u ch ((st.storage.getUser u).bind User.firstName))
          (some u) from by simp [handleFrame, handleFrameCore, hu]] at hmem
    obtain ⟨_, w, chans, _, _, hex, hl, _⟩ := broadcastToChannel_sound hmem
    have hw : (w, cu) ∈ st.clients := mapLookup_mem hl
    exact hex (congrArg some (halias (w, cu) hw rfl).symm)

/-- C7 witness: typing_start by user 7 in channel 5 reaches the other member
connection 2 and never the own connection 1 of the sender. -/
theorem C7_channel_routing_exclusion_exact_witness :
    (2, OutEvent.typingStart 7 5 (some "Ann")) ∈
      (handleFrame envBase stBase ⟨some 7, some 7⟩ 1
        (some (Frame.typingStart 5))).sent ∧
    (1, OutEvent.typingStart 7 5 (some "Ann")) ∉
      (handleFrame envBase stBase ⟨some 7, some 7⟩ 1
        (some (Frame.typingStart 5))).sent := by
  have h := C7_channel_routing_exclusion_exact envBase stBase 5
    (OutEvent.typingStart 7 5 (some "Ann")) 7 ⟨some 7, some 7⟩ 1 7 1
  constructor
  · rw [h.2.2.1 rfl]
    exact h.2.1 8 [5] 2 (by decide) (by decide) (by decide) (by decide) (by decide)
  · exact h.2.2.2 rfl (by decide) (OutEvent.typingStart 7 5 (some "Ann"))

/-- C10: on every successful bind (session path or fallback path) the
online_users snapshot sent to the binding connection contains the newly
bound UserId itself, because the registry entry is inserted before the
snapshot of registry keys is taken. -/
theorem C10_online_snapshot_contains_self
    (env : Env) (st : ServerState) (c : ConnState) (self : ConnId) (u : UserId)
    (h : c.authenticatedUserId = some u ∨
      (c.authenticatedUserId = none ∧ (st.storage.getUser u).isSome = true)) :
    ∃ l, (self, OutEvent.onlineUsers l) ∈
        (handleFrame env st c self (some (Frame.auth u))).sent ∧ u ∈ l := by
  refine ⟨(mapSet st.clients u self).map (fun p => p.1), ?_, mem_keys_mapSet _ _ _⟩
  rcases h with hs | ⟨hs, hg⟩
  · simp [handleFrame, handleFrameCore, bindUser, hs]
  · obtain ⟨user, huser⟩ := Option.isSome_iff_exists.mp hg
    simp [handleFrame, handleFrameCore, bindUser, hs, huser]

/-- C10 witness: user 9 binds on conn 3; the online_users frame sent to
conn 3 lists user 9. -/
theorem C10_online_snapshot_contains_self_witness :
    ∃ l, (3, OutEvent.onlineUsers l) ∈
        (handleFrame envBase stBase ⟨none, some 9⟩ 3 (some (Frame.auth 9))).sent ∧
      9 ∈ l :=
  C10_online_snapshot_contains_self envBase stBase ⟨none, some 9⟩ 3 9 (Or.inl rfl)
